import Mathlib

/-!
Shallow embedding of `src/src/cxx/database/src/VideoReader.cc` (namespace
`Torch::database`), a thin wrapper around the ffmpeg demuxing/decoding API,
together with the boost::python registration `bind_ip_gaussian` found in the
same file after the document separator.

Modelling conventions:
* ffmpeg calls are modelled by their observable outcomes, recorded in an
  `AVFormatFile` value describing the file being opened: whether
  `av_open_input_file` succeeds, whether `av_find_stream_info` succeeds, the
  list of streams (each with its codec properties and whether
  `avcodec_find_decoder` / `avcodec_open` succeed for it), the container
  duration, the packet sequence delivered by `av_read_frame`, and whether the
  various allocations (`avcodec_alloc_frame`, `av_malloc`, `sws_getContext`)
  succeed.
* C++ exceptions become explicit result constructors (`thrown`); the
  null-pointer dereference reachable in `read` / `operator++` when
  `m_parent == 0`, and the unguarded 64-bit integer division in `open`,
  become the explicit `crash` constructor (both are undefined behaviour in
  the C++ source, not exceptions).
* `size_t` / `int64_t` arithmetic: counters are `Nat` (they never reach
  2^64 in reachable states), `std::numeric_limits<size_t>::max()` is the
  concrete constant `sizeMax`, and the framerate division is C truncating
  division `Int.tdiv` on `Int`.
* Accessors such as `filename()`, `height()`, `width()`, `numberOfFrames()`
  and `cur()` are declared in the (absent) header `database/VideoReader.h`;
  they are modelled as plain field reads, which is forced by how the `.cc`
  file assigns and uses the corresponding members.
-/

namespace Torch
namespace database

/-- `AV_TIME_BASE` from libavutil. -/
def AV_TIME_BASE : Int := 1000000

/-- `std::numeric_limits<size_t>::max()`, the sentinel stored in
`m_current_frame` to mean "end". -/
def sizeMax : Nat := 2 ^ 64 - 1

/-- The codec type of a stream, as tested against `CODEC_TYPE_VIDEO`. -/
inductive CodecType where
  | video
  | audio
  | other
deriving DecidableEq, Repr

/-- One stream of the container, with the codec-context fields the source
reads and the outcomes of the ffmpeg codec calls made on it. -/
structure AVStream where
  codec_type : CodecType
  width : Nat
  height : Nat
  nb_frames : Nat
  time_base_num : Int
  time_base_den : Int
  /-- whether `avcodec_find_decoder(codec_ctxt->codec_id)` returns non-null -/
  decoder_found : Bool
  /-- whether `avcodec_open(codec_ctxt, codec)` returns `>= 0` -/
  codec_opens : Bool
  codec_name : String
  codec_long_name : String
deriving DecidableEq, Repr

/-- One packet as returned by `av_read_frame`: the stream it belongs to,
whether `avcodec_decode_video2` sets `gotPicture` for it, and, when it does,
the RGB24 bytes that `sws_scale` writes into the raw buffer (as a flat
row-major `(height, width, 3)` byte array). -/
structure AVPacket where
  stream_index : Int
  gotPicture : Bool
  picture : Nat → Nat

/-- Everything the ffmpeg library reports about one file, i.e. the
environment in which `open()` and `const_iterator::init()` run. -/
structure AVFormatFile where
  /-- whether `av_open_input_file` returns 0 -/
  readable : Bool
  /-- whether `av_find_stream_info` returns `>= 0` -/
  has_stream_info : Bool
  streams : List AVStream
  /-- `format_ctxt->duration`, an `int64_t` -/
  duration : Int
  /-- the packet sequence `av_read_frame` will deliver -/
  packets : List AVPacket
  /-- whether the first `avcodec_alloc_frame()` (for `m_frame_buffer`) succeeds -/
  alloc_frame_ok : Bool
  /-- whether the second `avcodec_alloc_frame()` (for `m_rgb_frame_buffer`) succeeds -/
  alloc_rgb_frame_ok : Bool
  /-- whether `av_malloc` for `m_raw_buffer` succeeds -/
  alloc_raw_ok : Bool
  /-- whether `sws_getContext` returns non-null -/
  sws_ok : Bool

/-- The exceptions thrown by the source: `db::FileNotReadable`,
`db::FFmpegException(filename, reason)` and `db::IndexError`. -/
inductive VideoError where
  | fileNotReadable (path : String)
  | ffmpeg (path : String) (reason : String)
  | indexError (idx : Nat)
deriving DecidableEq, Repr

/-- The failure categories enumerated by the specification for opening a
video: underlying-library failures plus the out-of-range frame index. -/
inductive FailureCategory where
  | resourceUnreadable
  | missingStreamInfo
  | noVideoStream
  | unsupportedCodec
  | codecOpenFailure
  | allocationFailure
  | indexOutOfRange
deriving DecidableEq, Repr

/-- The `FFmpegException` reasons that report an allocation failure (the
two `avcodec_alloc_frame` calls, the `av_malloc` call, and the
`sws_getContext` context allocation). -/
def allocationReasons : List String :=
  ["cannot allocate frame buffer", "cannot allocate RGB frame buffer",
   "cannot allocate raw frame buffer", "cannot initialize software scaler"]

/-- Mapping each thrown error onto the specification's failure category,
`none` for an error outside the enumeration. -/
def classify : VideoError → Option FailureCategory
  | VideoError.fileNotReadable _ => some FailureCategory.resourceUnreadable
  | VideoError.indexError _ => some FailureCategory.indexOutOfRange
  | VideoError.ffmpeg _ reason =>
      if reason = "cannot find stream info" then some FailureCategory.missingStreamInfo
      else if reason = "cannot find any video stream" then some FailureCategory.noVideoStream
      else if reason = "unsupported codec required" then some FailureCategory.unsupportedCodec
      else if reason = "cannot open supported codec" then some FailureCategory.codecOpenFailure
      else if reason ∈ allocationReasons then some FailureCategory.allocationFailure
      else none

/-- The loop at lines 93-99 / 264-269: index of the first stream whose
`codec_type` is `CODEC_TYPE_VIDEO`, or `-1` when there is none. -/
def findVideoStreamAux : List AVStream → Nat → Int
  | [], _ => -1
  | s :: rest, i =>
      if s.codec_type = CodecType.video then Int.ofNat i
      else findVideoStreamAux rest (i + 1)

/-- Stream index selected by `open` / `init` on a file. -/
def findVideoStreamIdx (streams : List AVStream) : Int :=
  findVideoStreamAux streams 0

/-- `format_ctxt->streams[i]` for a (possibly `-1`) index. -/
def streamAt (streams : List AVStream) : Int → Option AVStream
  | Int.ofNat i => streams.get? i
  | Int.negSucc _ => none

/-- Lines 107-110 / 289-291: the frame-rate hack, mutating
`codec_ctxt->time_base.den` when `num > 1000 && den == 1`. -/
def fixTimeBase (st : AVStream) : AVStream :=
  if st.time_base_num > 1000 ∧ st.time_base_den = 1 then
    { st with time_base_den := 1000 }
  else st

/-- The member fields of `db::VideoReader` (all cached metadata; the class
holds no ffmpeg handles, see `open`). -/
structure VideoReader where
  m_filepath : String
  m_height : Nat
  m_width : Nat
  m_nframes : Nat
  m_framerate : Int
  m_duration : Int
  m_codecname : String
  m_codecname_long : String
  m_formatted_info : String
deriving DecidableEq, BEq, Repr

/-- The printable description built at lines 139-152. The boost::format
floating-point rendering and the header version macros
(`BOOST_PP_STRINGIZE(LIBAVFORMAT_VERSION)` etc.) are abstracted into plain
`toString`s of the same fields; no claim depends on the exact text, only on
the string being a deterministic function of the fields shown. -/
def formatInfo (r : VideoReader) : String :=
  "Video file: " ++ r.m_filepath ++ "; Codec: " ++ r.m_codecname_long ++
    " (" ++ r.m_codecname ++ "); Time: " ++ toString r.m_duration ++
    " (" ++ toString r.m_nframes ++ " @ " ++ toString r.m_framerate ++
    "Hz); Size (w x h): " ++ toString r.m_width ++ " x " ++
    toString r.m_height ++ " pixels"

/-- Which of the ffmpeg handles opened by `open()` are still open at a given
point (the local `format_ctxt` file handle, and the codec opened on it). -/
structure OpenTrace where
  file_open : Bool
  codec_open : Bool
deriving DecidableEq, Repr

/-- Outcome of `db::VideoReader::open()` (lines 80-159): success with the
updated object, a thrown exception, or the undefined behaviour of the
unguarded `int64_t` division `m_nframes * AV_TIME_BASE / duration` when
`duration == 0` (line 130). Each outcome carries which handles are left
open at that point. -/
inductive OpenResult where
  | ok (r : VideoReader) (t : OpenTrace)
  | thrown (e : VideoError) (t : OpenTrace)
  | crash (t : OpenTrace)
deriving Repr

/-- The metadata assignments of `open()` at lines 127-133: the fields of
`r` overwritten from the selected stream and the container duration
(`m_filepath` is not touched). -/
def VideoReader.openedFields (r : VideoReader) (st : AVStream) (dur : Int) : VideoReader :=
  { r with
    m_width := st.width
    m_height := st.height
    m_nframes := st.nb_frames
    m_framerate := Int.tdiv (Int.ofNat st.nb_frames * AV_TIME_BASE) dur
    m_duration := dur
    m_codecname := st.codec_name
    m_codecname_long := st.codec_long_name }

/-- The object state `open()` leaves behind on success: the metadata
assignments followed by the `m_formatted_info` computation of lines
139-152, which reads the freshly assigned fields. -/
def VideoReader.openedResult (r : VideoReader) (st : AVStream) (dur : Int) : VideoReader :=
  { VideoReader.openedFields r st dur with
    m_formatted_info := formatInfo (VideoReader.openedFields r st dur) }

/-- `db::VideoReader::open()`, lines 80-159, run on object `r` (the path
used is `r.m_filepath`) against file contents `f`. -/
def VideoReader.openM (r : VideoReader) (f : AVFormatFile) : OpenResult :=
  if f.readable = false then
    OpenResult.thrown (VideoError.fileNotReadable r.m_filepath) ⟨false, false⟩
  else if f.has_stream_info = false then
    OpenResult.thrown (VideoError.ffmpeg r.m_filepath "cannot find stream info") ⟨true, false⟩
  else
    match streamAt f.streams (findVideoStreamIdx f.streams) with
    | none =>
        OpenResult.thrown (VideoError.ffmpeg r.m_filepath "cannot find any video stream") ⟨true, false⟩
    | some st0 =>
        if (fixTimeBase st0).decoder_found = false then
          OpenResult.thrown (VideoError.ffmpeg r.m_filepath "unsupported codec required") ⟨true, false⟩
        else if (fixTimeBase st0).codec_opens = false then
          OpenResult.thrown (VideoError.ffmpeg r.m_filepath "cannot open supported codec") ⟨true, false⟩
        else if f.duration = 0 then
          OpenResult.crash ⟨true, true⟩
        else
          OpenResult.ok (VideoReader.openedResult r (fixTimeBase st0) f.duration)
            ⟨false, false⟩

/-- The member-initialiser state shared by both constructors (lines 38-48
and 52-62): all cached fields zero / empty. -/
def VideoReader.zeroed (filename : String) : VideoReader :=
  { m_filepath := filename
    m_height := 0
    m_width := 0
    m_nframes := 0
    m_framerate := 0
    m_duration := 0
    m_codecname := ""
    m_codecname_long := ""
    m_formatted_info := "" }

/-- `VideoReader(const std::string&)` (lines 38-50): zero-initialise, then
`open()`. The filesystem `fs` maps a path to the file ffmpeg sees there. -/
def VideoReader.construct (fs : String → AVFormatFile) (filename : String) : OpenResult :=
  VideoReader.openM (VideoReader.zeroed filename) (fs filename)

/-- `VideoReader(const VideoReader&)` (lines 52-64): copy only `m_filepath`,
zero everything else, then `open()`. -/
def VideoReader.copyCtor (fs : String → AVFormatFile) (other : VideoReader) : OpenResult :=
  VideoReader.openM (VideoReader.zeroed other.m_filepath) (fs other.m_filepath)

/-- `VideoReader::operator=` (lines 66-78): overwrite every field of `self`
(path from `other`, the rest zero / empty), then `open()`. -/
def VideoReader.assign (fs : String → AVFormatFile) (self other : VideoReader) : OpenResult :=
  VideoReader.openM
    { self with
      m_filepath := other.m_filepath
      m_height := 0
      m_width := 0
      m_nframes := 0
      m_framerate := 0
      m_duration := 0
      m_codecname := ""
      m_codecname_long := ""
      m_formatted_info := "" }
    (fs other.m_filepath)

/-- `~VideoReader()` (lines 161-162) has an empty body: it releases
nothing and leaves the object unchanged. -/
def VideoReader.destruct (r : VideoReader) : VideoReader := r

/-! ### blitz::Array model

Only what the source uses: extents, storage contiguity, element access,
`resize`, whole-array assignment, the `(ptr, shape, neverDeleteData)`
constructor over a flat buffer, and `transpose`. Element values are total
functions; only in-range indices are meaningful. -/

/-- A `blitz::Array<uint8_t,3>`. -/
structure Arr3 where
  e0 : Nat
  e1 : Nat
  e2 : Nat
  contiguous : Bool
  dat : Nat → Nat → Nat → Nat

/-- A `blitz::Array<uint8_t,4>`. -/
structure Arr4 where
  e0 : Nat
  e1 : Nat
  e2 : Nat
  e3 : Nat
  contiguous : Bool
  dat : Nat → Nat → Nat → Nat → Nat

/-- `data.resize(a, b, c)`: fresh contiguous storage of the given extents
(element values after a resize are unspecified; modelled as zero, and every
claim only looks at elements that are overwritten afterwards). -/
def resize3 (a b c : Nat) : Arr3 :=
  { e0 := a, e1 := b, e2 := c, contiguous := true, dat := fun _ _ _ => 0 }

/-- `data.resize(a, b, c, d)` for rank 4. -/
def resize4 (a b c d : Nat) : Arr4 :=
  { e0 := a, e1 := b, e2 := c, e3 := d, contiguous := true
    dat := fun _ _ _ _ => 0 }

/-- Whole-array assignment `d = v` between arrays of equal extents: copies
the element values into the storage of `d`. -/
def assign3 (d v : Arr3) : Arr3 :=
  { d with dat := v.dat }

/-- `d(k, all, all, all)`: the rank-3 slice of `d` at first index `k`
(a slice at a fixed leading index of a contiguous array is contiguous). -/
def slice4 (d : Arr4) (k : Nat) : Arr3 :=
  { e0 := d.e1, e1 := d.e2, e2 := d.e3, contiguous := d.contiguous
    dat := fun c y x => d.dat k c y x }

/-- Writing a rank-3 value back through the slice reference
`d(k, all, all, all)`. -/
def writeSlice4 (d : Arr4) (k : Nat) (v : Arr3) : Arr4 :=
  { d with dat := fun i c y x => if i = k then v.dat c y x else d.dat i c y x }

/-- `Arr3` extent by dimension number, as used by `transpose`. -/
def Arr3.extent (A : Arr3) : Nat → Nat
  | 0 => A.e0
  | 1 => A.e1
  | 2 => A.e2
  | _ => 0

/-- Given the permutation `(r0, r1, r2)` passed to `blitz`'s `transpose`
and the new indices `(i0, i1, i2)`, the index along OLD dimension `j`
(new dimension `k` ranges over old dimension `r_k`). -/
def permIndex (r0 r1 r2 i0 i1 i2 j : Nat) : Nat :=
  if r0 = j then i0 else if r1 = j then i1 else if r2 = j then i2 else 0

/-- `A.transpose(r0, r1, r2)`: a view whose dimension `k` is `A`'s
dimension `r_k`. The view is not contiguous storage. -/
def Arr3.transposeView (A : Arr3) (r0 r1 r2 : Nat) : Arr3 :=
  { e0 := A.extent r0
    e1 := A.extent r1
    e2 := A.extent r2
    contiguous := false
    dat := fun i0 i1 i2 =>
      A.dat (permIndex r0 r1 r2 i0 i1 i2 0) (permIndex r0 r1 r2 i0 i1 i2 1)
        (permIndex r0 r1 r2 i0 i1 i2 2) }

/-- `blitz::Array<uint8_t,3>(m_rgb_frame_buffer->data[0], shape(h, w, 3),
neverDeleteData)`: the row-major `(h, w, 3)` view of the flat RGB24 raw
buffer filled by `avpicture_fill` (linesize `3 * w`). -/
def fromRaw (h w : Nat) (raw : Nat → Nat) : Arr3 :=
  { e0 := h, e1 := w, e2 := 3, contiguous := true
    dat := fun y x c => raw ((y * w + x) * 3 + c) }

/-! ### db::VideoReader::const_iterator -/

/-- The member fields of `db::VideoReader::const_iterator`. Pointer-valued
handle members are modelled by whether they are non-null; in addition the
state of the open demuxer (`m_format_ctxt`'s read position, i.e. the
packets `av_read_frame` has not yet delivered) and the byte contents of the
raw RGB buffer are carried explicitly. -/
structure ConstIterator where
  m_parent : Option VideoReader
  m_format_ctxt : Bool
  m_stream_index : Int
  m_codec_ctxt : Bool
  m_codec : Bool
  m_frame_buffer : Bool
  m_rgb_frame_buffer : Bool
  m_raw_buffer : Bool
  m_current_frame : Nat
  m_sws_context : Bool
  /-- packets remaining in the open `m_format_ctxt` -/
  m_packets : List AVPacket
  /-- current contents of the raw RGB buffer written by `sws_scale` -/
  m_rgb_data : Nat → Nat

/-- The default constructor (lines 207-219): the "end" iterator, with null
parent and the `sizeMax` sentinel counter. -/
def ConstIterator.endIter : ConstIterator :=
  { m_parent := none
    m_format_ctxt := false
    m_stream_index := -1
    m_codec_ctxt := false
    m_codec := false
    m_frame_buffer := false
    m_rgb_frame_buffer := false
    m_raw_buffer := false
    m_current_frame := sizeMax
    m_sws_context := false
    m_packets := []
    m_rgb_data := fun _ => 0 }

/-- `operator==` (lines 491-493): compares only the parent pointer and the
current-frame counter. -/
def ConstIterator.beq (a b : ConstIterator) : Bool :=
  (a.m_parent == b.m_parent) && (a.m_current_frame == b.m_current_frame)

/-- `operator!=` (lines 495-497). -/
def ConstIterator.bne (a b : ConstIterator) : Bool :=
  !(ConstIterator.beq a b)

/-- `const_iterator::reset()` (lines 341-379). Note the source only nulls
`m_codec` inside the `if (m_codec_ctxt)` branch and only nulls
`m_codec_ctxt` inside the `if (m_format_ctxt)` branch; the transcription
keeps that branch structure. Closing `m_format_ctxt` discards the demuxer
position. `m_stream_index` and the freed buffer bytes are not touched. -/
def ConstIterator.reset (it : ConstIterator) : ConstIterator :=
  let it1 := if it.m_frame_buffer then { it with m_frame_buffer := false } else it
  let it2 := if it1.m_rgb_frame_buffer then { it1 with m_rgb_frame_buffer := false } else it1
  let it3 := if it2.m_raw_buffer then { it2 with m_raw_buffer := false } else it2
  let it4 := if it3.m_sws_context then { it3 with m_sws_context := false } else it3
  let it5 := if it4.m_codec_ctxt then { it4 with m_codec := false } else it4
  let it6 :=
    if it5.m_format_ctxt then
      { it5 with m_codec_ctxt := false, m_format_ctxt := false, m_packets := [] }
    else it5
  { it6 with m_current_frame := sizeMax, m_parent := none }

/-- `~const_iterator()` (lines 238-240): calls `reset()`. -/
def ConstIterator.destruct (it : ConstIterator) : ConstIterator :=
  it.reset

/-- Outcome of `const_iterator::init()`. -/
inductive InitResult where
  | ok (s : ConstIterator)
  | thrown (e : VideoError)

/-- The iterator state at the end of a fully successful `init()` run just
before the zero-frame check of line 335: parent set, all handles
allocated, demuxer at the start of the packet stream, counter at frame 0,
raw RGB buffer not yet written (fresh `av_malloc` memory, modelled as
zeros). -/
def ConstIterator.liveStart (p : VideoReader) (f : AVFormatFile) : ConstIterator :=
  { m_parent := some p
    m_format_ctxt := true
    m_stream_index := findVideoStreamIdx f.streams
    m_codec_ctxt := true
    m_codec := true
    m_frame_buffer := true
    m_rgb_frame_buffer := true
    m_raw_buffer := true
    m_current_frame := 0
    m_sws_context := true
    m_packets := f.packets
    m_rgb_data := fun _ => 0 }

/-- `const_iterator::init()` (lines 250-339), run for parent reader `p`
against file contents `f` (the file at `m_parent->filename()`). On full
success the iterator is live at frame 0 with all handles allocated, unless
the file declares zero frames, in which case it is immediately `reset()`
into the end state (lines 334-338). -/
def ConstIterator.init (p : VideoReader) (f : AVFormatFile) : InitResult :=
  if f.readable = false then
    InitResult.thrown (VideoError.fileNotReadable p.m_filepath)
  else if f.has_stream_info = false then
    InitResult.thrown (VideoError.ffmpeg p.m_filepath "cannot find stream info")
  else
    match streamAt f.streams (findVideoStreamIdx f.streams) with
    | none =>
        InitResult.thrown (VideoError.ffmpeg p.m_filepath "cannot find any video stream")
    | some st =>
        if st.decoder_found = false then
          InitResult.thrown (VideoError.ffmpeg p.m_filepath "unsupported codec required")
        else if st.codec_opens = false then
          InitResult.thrown (VideoError.ffmpeg p.m_filepath "cannot open supported codec")
        else if f.alloc_frame_ok = false then
          InitResult.thrown (VideoError.ffmpeg p.m_filepath "cannot allocate frame buffer")
        else if f.alloc_rgb_frame_ok = false then
          InitResult.thrown (VideoError.ffmpeg p.m_filepath "cannot allocate RGB frame buffer")
        else if f.alloc_raw_ok = false then
          InitResult.thrown (VideoError.ffmpeg p.m_filepath "cannot allocate raw frame buffer")
        else if f.sws_ok = false then
          InitResult.thrown (VideoError.ffmpeg p.m_filepath "cannot initialize software scaler")
        else if p.m_nframes ≤ (ConstIterator.liveStart p f).m_current_frame then
          InitResult.ok (ConstIterator.liveStart p f).reset
        else InitResult.ok (ConstIterator.liveStart p f)

/-- `VideoReader::begin()` (lines 180-182): constructs
`const_iterator(this)`, whose constructor (lines 192-205) calls `init()`. -/
def VideoReader.begin (p : VideoReader) (f : AVFormatFile) : InitResult :=
  ConstIterator.init p f

/-- The `while (av_read_frame(...) >= 0)` loop shared by `read` (lines
398-421) and `operator++` (lines 458-477): skip packets until one from the
video stream decodes a picture. Returns the remaining packets and, when a
picture was got, its RGB bytes. When the stream is exhausted without a
picture, all packets are consumed and nothing else happens. -/
def decodeLoop (si : Int) : List AVPacket → List AVPacket × Option (Nat → Nat)
  | [] => ([], none)
  | p :: rest =>
      if p.stream_index = si ∧ p.gotPicture = true then (rest, some p.picture)
      else decodeLoop si rest

/-- Number of packets of stream `si` in `pkts` that decode to a picture. -/
def countDecodable (si : Int) (pkts : List AVPacket) : Nat :=
  (pkts.filter (fun p => p.stream_index == si && p.gotPicture)).length

/-- Outcome of `const_iterator::read(data)`: success (new iterator state
and new contents of the destination array), a thrown `IndexError`, or the
null-pointer dereference of `m_parent->numberOfFrames()` on an iterator
with a null parent (line 383). -/
inductive ReadResult where
  | ok (s : ConstIterator) (d : Arr3)
  | thrown (e : VideoError)
  | crash

/-- Whether a `read` outcome is a successful return. -/
def ReadResult.isOk : ReadResult → Bool
  | ReadResult.ok _ _ => true
  | _ => false

/-- Whether a `read` outcome is a successful return whose iterator
compares equal to `end()`. -/
def ReadResult.endAfter : ReadResult → Bool
  | ReadResult.ok s _ => ConstIterator.beq s ConstIterator.endIter
  | _ => false

/-- The picture got (if any) by the decode loop of `read` / `operator++`
starting from the iterator's current demuxer position. -/
def ConstIterator.readGot (it : ConstIterator) : Option (Nat → Nat) :=
  (decodeLoop it.m_stream_index it.m_packets).2

/-- Contents of the raw RGB buffer after the decode loop of `read`: the
scaled picture when one was got (lines 406-408), otherwise the previous
contents (stale; `sws_scale` is never called). -/
def ConstIterator.readRgb (it : ConstIterator) : Nat → Nat :=
  match ConstIterator.readGot it with
  | some pic => pic
  | none => it.m_rgb_data

/-- The current-frame counter after the decode loop: `++m_current_frame`
at line 411 / 467 runs exactly when a picture was got. -/
def ConstIterator.readCur (it : ConstIterator) : Nat :=
  match ConstIterator.readGot it with
  | some _ => it.m_current_frame + 1
  | none => it.m_current_frame

/-- The iterator state after the decode loop of `read`, before the
end-of-sequence check of line 438. -/
def ConstIterator.readNext (it : ConstIterator) : ConstIterator :=
  { it with
    m_packets := (decodeLoop it.m_stream_index it.m_packets).1
    m_rgb_data := ConstIterator.readRgb it
    m_current_frame := ConstIterator.readCur it }

/-- The destination array contents produced by `read`: the conformity
resize of lines 389-392 followed by the assignment of lines 434-436,
`data = Array(rgb, shape(h, w, 3), neverDeleteData).transpose(2, 0, 1)`. -/
def ConstIterator.readDat (p : VideoReader) (it : ConstIterator) (d : Arr3) : Arr3 :=
  assign3
    (if d.e0 ≠ 3 ∨ d.e1 ≠ p.m_height ∨ d.e2 ≠ p.m_width then
      resize3 3 p.m_height p.m_width
    else d)
    ((fromRaw p.m_height p.m_width (ConstIterator.readRgb it)).transposeView 2 0 1)

/-- `const_iterator::read(data)` (lines 381-442). -/
def ConstIterator.read (it : ConstIterator) (d : Arr3) : ReadResult :=
  match it.m_parent with
  | none => ReadResult.crash
  | some p =>
      if p.m_nframes < it.m_current_frame then
        ReadResult.thrown (VideoError.indexError it.m_current_frame)
      else if p.m_nframes ≤ ConstIterator.readCur it then
        ReadResult.ok (ConstIterator.readNext it).reset (ConstIterator.readDat p it d)
      else ReadResult.ok (ConstIterator.readNext it) (ConstIterator.readDat p it d)

/-- Outcome of `const_iterator::operator++`. -/
inductive IncResult where
  | ok (s : ConstIterator)
  | thrown (e : VideoError)
  | crash

/-- The iterator state after the decode loop of `operator++`: like
`ConstIterator.readNext` but the raw RGB buffer keeps its previous
contents, because `operator++` skips the `sws_scale` conversion. -/
def ConstIterator.incNext (it : ConstIterator) : ConstIterator :=
  { it with
    m_packets := (decodeLoop it.m_stream_index it.m_packets).1
    m_current_frame := ConstIterator.readCur it }

/-- `const_iterator::operator++` (lines 448-484): like `read` but without
the `sws_scale` conversion and without touching any destination array. -/
def ConstIterator.inc (it : ConstIterator) : IncResult :=
  match it.m_parent with
  | none => IncResult.crash
  | some p =>
      if p.m_nframes < it.m_current_frame then
        IncResult.thrown (VideoError.indexError it.m_current_frame)
      else if p.m_nframes ≤ ConstIterator.readCur it then
        IncResult.ok (ConstIterator.incNext it).reset
      else IncResult.ok (ConstIterator.incNext it)

/-! ### db::VideoReader::load -/

/-- The conformity check of `load` (lines 167-171): resize the output array
unless it already has shape `(numberOfFrames(), 3, height(), width())` and
contiguous storage. -/
def VideoReader.loadPrepare (p : VideoReader) (d : Arr4) : Arr4 :=
  if d.e0 ≠ p.m_nframes ∨ d.e1 ≠ 3 ∨ d.e2 ≠ p.m_height ∨ d.e3 ≠ p.m_width ∨
      d.contiguous = false then
    resize4 p.m_nframes 3 p.m_height p.m_width
  else d

/-- The loop of `load` (lines 174-177): while `it != end()`, bind
`ref = data(it.cur(), all, all, all)` and call `it.read(ref)`, writing the
result back through the slice. The C++ loop has no bound; `fuel` caps the
number of iterations modelled, `none` meaning the loop did not finish
within `fuel` steps (or an exception / crash escaped from `read`). The
last component counts the `read` calls performed. -/
def VideoReader.loadLoop :
    Nat → ConstIterator → Arr4 → Nat → Option (Arr4 × ConstIterator × Nat)
  | 0, s, d, n =>
      if ConstIterator.beq s ConstIterator.endIter then some (d, s, n) else none
  | fuel + 1, s, d, n =>
      if ConstIterator.beq s ConstIterator.endIter then some (d, s, n)
      else
        match ConstIterator.read s (slice4 d s.m_current_frame) with
        | ReadResult.ok s1 fr =>
            VideoReader.loadLoop fuel s1 (writeSlice4 d s.m_current_frame fr) (n + 1)
        | _ => none

/-- `VideoReader::load(data)` (lines 164-178): conformity check, then the
iteration from `begin()`. Returns the final array and the number of `read`
calls, `none` when `begin()` throws or the loop does not finish in `fuel`
steps. -/
def VideoReader.load (p : VideoReader) (f : AVFormatFile) (fuel : Nat) (d : Arr4) :
    Option (Arr4 × Nat) :=
  match VideoReader.begin p f with
  | InitResult.ok s =>
      match VideoReader.loadLoop fuel s (VideoReader.loadPrepare p d) 0 with
      | some (d2, _, n) => some (d2, n)
      | none => none
  | InitResult.thrown _ => none

/-! ### Concrete fixtures used to evaluate the development on closed inputs -/

/-- A concrete 4x2 single-stream video declaring one frame. -/
def wStream : AVStream :=
  { codec_type := CodecType.video
    width := 4
    height := 2
    nb_frames := 1
    time_base_num := 1
    time_base_den := 25
    decoder_found := true
    codec_opens := true
    codec_name := "mjpeg"
    codec_long_name := "MJPEG" }

/-- A concrete decodable packet of stream 0 with distinguishable bytes. -/
def wPacket : AVPacket :=
  { stream_index := 0, gotPicture := true, picture := fun i => i + 7 }

/-- A concrete fully readable file containing `wStream` and one decodable
packet. -/
def wFile : AVFormatFile :=
  { readable := true
    has_stream_info := true
    streams := [wStream]
    duration := 2000000
    packets := [wPacket]
    alloc_frame_ok := true
    alloc_rgb_frame_ok := true
    alloc_raw_ok := true
    sws_ok := true }

/-- The reader state produced by opening `wFile`. -/
def wReader : VideoReader :=
  VideoReader.openedResult (VideoReader.zeroed "w.avi") (fixTimeBase wStream) wFile.duration

/-- A concrete rank-3 destination array of the conforming shape. -/
def wArr3 : Arr3 :=
  { e0 := 3, e1 := 2, e2 := 4, contiguous := true, dat := fun _ _ _ => 9 }

/-- A hypothetical live iterator over `wFile` positioned exactly AT the
declared frame count (counter 1 with 1 declared frame). -/
def wAtCount : ConstIterator :=
  { ConstIterator.liveStart wReader wFile with m_current_frame := 1 }

/-- A hypothetical live iterator over `wFile` positioned strictly past the
declared frame count. -/
def wPastEnd : ConstIterator :=
  { ConstIterator.liveStart wReader wFile with m_current_frame := 5 }

/-- A concrete rank-4 destination array of some other shape. -/
def wArr4 : Arr4 :=
  { e0 := 5, e1 := 1, e2 := 1, e3 := 1, contiguous := true, dat := fun _ _ _ _ => 9 }

end database

namespace ip

/-! ### The boost::python registration `bind_ip_gaussian`

The second source file (the part after the document separator) contains
only declarative registration calls; it is embedded as the registration
data it submits to `boost::python`. -/

/-- One formal argument of an exposed callable, with its default value when
one is given (as written in the source, `arg("sigma") = "0.25"`). -/
structure ArgSpec where
  arg_name : String
  default_value : Option String
deriving DecidableEq, Repr

/-- One `.def("__call__", ...)` overload: its keyword arguments and the
pixel depth, in bits, of the unsigned-integer image type it instantiates
the call operator template at. -/
structure CallOverload where
  args : List String
  pixel_depth_bits : Nat
  doc : String
deriving DecidableEq, Repr

/-- One `class_<...>` registration. -/
structure ClassBinding where
  class_name : String
  doc : String
  ctor_args : List ArgSpec
  call_overloads : List CallOverload
deriving DecidableEq, Repr

/-- The docstring `gaussiandoc`. -/
def gaussiandoc : String := "Performs gaussian smoothing"

/-- `bind_ip_gaussian()` (lines 515-520 of the combined file): the list of
class registrations it performs. -/
def bind_ip_gaussian : List ClassBinding :=
  [{ class_name := "GaussianSmooth"
     doc := gaussiandoc
     ctor_args :=
       [{ arg_name := "radius_x", default_value := none },
        { arg_name := "radius_y", default_value := none },
        { arg_name := "sigma", default_value := some "0.25" }]
     call_overloads :=
       [{ args := ["self", "src", "dst"], pixel_depth_bits := 8
          doc := "Smooth an image" },
        { args := ["self", "src", "dst"], pixel_depth_bits := 16
          doc := "Smooth an image" }] }]

end ip
end Torch

namespace Torch
namespace ip

/-- C8: the scripting binding registers exactly one callable class,
`GaussianSmooth`, whose constructor has the fixed signature
`(radius_x, radius_y, sigma)` with only `sigma` carrying a default, and
whose call operator has exactly two overloads, one for 8-bit and one for
16-bit unsigned pixels. -/
theorem spec_C8_gaussian_binding :
    bind_ip_gaussian.map ClassBinding.class_name = ["GaussianSmooth"] ∧
    bind_ip_gaussian.map (fun cb => cb.ctor_args.map ArgSpec.arg_name) =
      [["radius_x", "radius_y", "sigma"]] ∧
    bind_ip_gaussian.map (fun cb => cb.ctor_args.map ArgSpec.default_value) =
      [[none, none, some "0.25"]] ∧
    bind_ip_gaussian.map (fun cb => cb.call_overloads.map CallOverload.pixel_depth_bits) =
      [[8, 16]] :=
  ⟨rfl, rfl, rfl, rfl⟩

end ip

namespace database

/-- C9: copy-constructing or copy-assigning a `VideoReader` is the same
operation as constructing a fresh `VideoReader` from the source object's
file path: every cached metadata field is reset to zero / empty and then
recomputed by `open()`, independently of the cached fields of either
object involved. -/
theorem spec_C9_copy_is_reopen :
    ∀ (fs : String → AVFormatFile) (self other : VideoReader),
      VideoReader.copyCtor fs other = VideoReader.construct fs other.m_filepath ∧
      VideoReader.assign fs self other = VideoReader.construct fs other.m_filepath :=
  fun _ _ _ => ⟨rfl, rfl⟩

/-- Helper: everything a successful `open()` run implies. -/
theorem VideoReader.openM_ok_elim {r0 r : VideoReader} {f : AVFormatFile} {t : OpenTrace}
    (h : VideoReader.openM r0 f = OpenResult.ok r t) :
    ∃ st0, streamAt f.streams (findVideoStreamIdx f.streams) = some st0 ∧
      f.duration ≠ 0 ∧ t = OpenTrace.mk false false ∧
      r = VideoReader.openedResult r0 (fixTimeBase st0) f.duration := by
  unfold VideoReader.openM at h
  split at h
  · exact OpenResult.noConfusion h
  split at h
  · exact OpenResult.noConfusion h
  split at h
  · exact OpenResult.noConfusion h
  next st0 hst =>
    split at h
    · exact OpenResult.noConfusion h
    split at h
    · exact OpenResult.noConfusion h
    split at h
    · exact OpenResult.noConfusion h
    next hdur =>
      injection h with h1 h2
      exact ⟨st0, hst, hdur, h2.symm, h1.symm⟩

/-- C10: destroying a `const_iterator` runs `reset()`, which frees both
frame buffers, the raw buffer, the scaler context and closes the codec and
the input file, leaving every handle field null (given the handle ordering
invariant of initialisation: a non-null codec implies a non-null codec
context, which implies a non-null format context); and `open()` returns
successfully only with both of its local handles already closed, so a
constructed `VideoReader` holds no open handle and its (empty) destructor
releases nothing. -/
theorem spec_C10_handles_released :
    (∀ it : ConstIterator,
        (it.m_codec = true → it.m_codec_ctxt = true) →
        (it.m_codec_ctxt = true → it.m_format_ctxt = true) →
        it.destruct.m_frame_buffer = false ∧
        it.destruct.m_rgb_frame_buffer = false ∧
        it.destruct.m_raw_buffer = false ∧
        it.destruct.m_sws_context = false ∧
        it.destruct.m_codec = false ∧
        it.destruct.m_codec_ctxt = false ∧
        it.destruct.m_format_ctxt = false ∧
        it.destruct.m_parent = none ∧
        it.destruct.m_current_frame = sizeMax) ∧
    (∀ (r0 r : VideoReader) (f : AVFormatFile) (t : OpenTrace),
        VideoReader.openM r0 f = OpenResult.ok r t →
        t.file_open = false ∧ t.codec_open = false) ∧
    (∀ r : VideoReader, VideoReader.destruct r = r) := by
  refine ⟨?_, ?_, fun _ => rfl⟩
  · intro it h1 h2
    rcases it with ⟨par, fc, si, cc, co, fb, rgbf, raw, cur, sws, pkts, rgbd⟩
    cases fb <;> cases rgbf <;> cases raw <;> cases sws <;> cases cc <;> cases fc <;>
      cases co <;> simp_all [ConstIterator.destruct, ConstIterator.reset]
  · intro r0 r f t h
    obtain ⟨st0, _, _, ht, _⟩ := VideoReader.openM_ok_elim h
    rw [ht]
    exact ⟨rfl, rfl⟩

/-- C6: `open()` stores `m_framerate = m_nframes * AV_TIME_BASE / duration`
with an unguarded `int64_t` division (line 130): whenever `open()` reaches
that line with `duration == 0` it is undefined behaviour (a crash, never a
successful return), and on every successful return the duration was
nonzero and the stored framerate is exactly the truncating integer
quotient. -/
theorem spec_C6_framerate_division :
    (∀ (r0 r : VideoReader) (f : AVFormatFile) (t : OpenTrace),
        VideoReader.openM r0 f = OpenResult.ok r t →
        f.duration ≠ 0 ∧
        r.m_framerate = Int.tdiv (Int.ofNat r.m_nframes * AV_TIME_BASE) f.duration) ∧
    (∀ (r0 : VideoReader) (f : AVFormatFile) (st : AVStream),
        f.readable = true →
        f.has_stream_info = true →
        streamAt f.streams (findVideoStreamIdx f.streams) = some st →
        (fixTimeBase st).decoder_found = true →
        (fixTimeBase st).codec_opens = true →
        f.duration = 0 →
        VideoReader.openM r0 f = OpenResult.crash ⟨true, true⟩) := by
  constructor
  · intro r0 r f t h
    obtain ⟨st0, _, hdur, _, hr⟩ := VideoReader.openM_ok_elim h
    refine ⟨hdur, ?_⟩
    rw [hr]
    rfl
  · intro r0 f st hr hsi hst hdec hop hdur
    unfold VideoReader.openM
    rw [hst]
    simp [hr, hsi, hdec, hop, hdur]

/-- Witness for C10 at a concrete fully initialised iterator and a
concrete successful `open()` run. -/
theorem spec_C10_handles_released_witness :
    ((ConstIterator.liveStart wReader wFile).destruct.m_frame_buffer = false ∧
     (ConstIterator.liveStart wReader wFile).destruct.m_rgb_frame_buffer = false ∧
     (ConstIterator.liveStart wReader wFile).destruct.m_raw_buffer = false ∧
     (ConstIterator.liveStart wReader wFile).destruct.m_sws_context = false ∧
     (ConstIterator.liveStart wReader wFile).destruct.m_codec = false ∧
     (ConstIterator.liveStart wReader wFile).destruct.m_codec_ctxt = false ∧
     (ConstIterator.liveStart wReader wFile).destruct.m_format_ctxt = false ∧
     (ConstIterator.liveStart wReader wFile).destruct.m_parent = none ∧
     (ConstIterator.liveStart wReader wFile).destruct.m_current_frame = sizeMax) ∧
    ((OpenTrace.mk false false).file_open = false ∧
     (OpenTrace.mk false false).codec_open = false) :=
  ⟨spec_C10_handles_released.1 (ConstIterator.liveStart wReader wFile)
      (fun _ => rfl) (fun _ => rfl),
   spec_C10_handles_released.2.1 (VideoReader.zeroed "w.avi") wReader wFile
      (OpenTrace.mk false false) rfl⟩

/-- Witness for C6 at a concrete successful open (duration 2000000) and a
concrete zero-duration file. -/
theorem spec_C6_framerate_division_witness :
    (wFile.duration ≠ 0 ∧
     wReader.m_framerate = Int.tdiv (Int.ofNat wReader.m_nframes * AV_TIME_BASE) wFile.duration) ∧
    VideoReader.openM (VideoReader.zeroed "w.avi") { wFile with duration := 0 } =
      OpenResult.crash ⟨true, true⟩ :=
  ⟨spec_C6_framerate_division.1 (VideoReader.zeroed "w.avi") wReader wFile
      (OpenTrace.mk false false) rfl,
   spec_C6_framerate_division.2 (VideoReader.zeroed "w.avi") { wFile with duration := 0 }
      wStream rfl rfl rfl rfl rfl rfl⟩

/-- Helper: every error thrown by `open()` classifies as one of the five
open-time categories. -/
theorem VideoReader.openM_thrown_classify {r0 : VideoReader} {f : AVFormatFile}
    {e : VideoError} {t : OpenTrace}
    (h : VideoReader.openM r0 f = OpenResult.thrown e t) :
    classify e = some FailureCategory.resourceUnreadable ∨
    classify e = some FailureCategory.missingStreamInfo ∨
    classify e = some FailureCategory.noVideoStream ∨
    classify e = some FailureCategory.unsupportedCodec ∨
    classify e = some FailureCategory.codecOpenFailure := by
  unfold VideoReader.openM at h
  split at h
  · injection h with h1 _
    subst h1
    exact Or.inl rfl
  split at h
  · injection h with h1 _
    subst h1
    exact Or.inr (Or.inl rfl)
  split at h
  · injection h with h1 _
    subst h1
    exact Or.inr (Or.inr (Or.inl rfl))
  split at h
  · injection h with h1 _
    subst h1
    exact Or.inr (Or.inr (Or.inr (Or.inl rfl)))
  split at h
  · injection h with h1 _
    subst h1
    exact Or.inr (Or.inr (Or.inr (Or.inr rfl)))
  split at h
  · exact OpenResult.noConfusion h
  · exact OpenResult.noConfusion h

/-- Helper: every error thrown by `const_iterator::init()` classifies as
an open-time or allocation category. -/
theorem ConstIterator.init_thrown_classify {p : VideoReader} {f : AVFormatFile}
    {e : VideoError} (h : ConstIterator.init p f = InitResult.thrown e) :
    classify e = some FailureCategory.resourceUnreadable ∨
    classify e = some FailureCategory.missingStreamInfo ∨
    classify e = some FailureCategory.noVideoStream ∨
    classify e = some FailureCategory.unsupportedCodec ∨
    classify e = some FailureCategory.codecOpenFailure ∨
    classify e = some FailureCategory.allocationFailure := by
  unfold ConstIterator.init at h
  split at h
  · injection h with h1
    subst h1
    exact Or.inl rfl
  split at h
  · injection h with h1
    subst h1
    exact Or.inr (Or.inl rfl)
  split at h
  · injection h with h1
    subst h1
    exact Or.inr (Or.inr (Or.inl rfl))
  split at h
  · injection h with h1
    subst h1
    exact Or.inr (Or.inr (Or.inr (Or.inl rfl)))
  split at h
  · injection h with h1
    subst h1
    exact Or.inr (Or.inr (Or.inr (Or.inr (Or.inl rfl))))
  split at h
  · injection h with h1
    subst h1
    exact Or.inr (Or.inr (Or.inr (Or.inr (Or.inr rfl))))
  split at h
  · injection h with h1
    subst h1
    exact Or.inr (Or.inr (Or.inr (Or.inr (Or.inr rfl))))
  split at h
  · injection h with h1
    subst h1
    exact Or.inr (Or.inr (Or.inr (Or.inr (Or.inr rfl))))
  split at h
  · injection h with h1
    subst h1
    exact Or.inr (Or.inr (Or.inr (Or.inr (Or.inr rfl))))
  split at h
  · exact InitResult.noConfusion h
  · exact InitResult.noConfusion h

/-- C4: every failure of opening a video, whether in `VideoReader::open()`
or in the iterator's `init()`, is thrown immediately as one of the
enumerated underlying-library failures (resource unreadable, missing
stream metadata, no video stream, unsupported codec, codec cannot be
opened, allocation failure) and never as an out-of-range index; in
particular a non-readable file makes both throw `FileNotReadable` with
the file path, before anything else runs. -/
theorem spec_C4_failures_enumerated :
    (∀ (r0 : VideoReader) (f : AVFormatFile),
        f.readable = false →
        VideoReader.openM r0 f =
          OpenResult.thrown (VideoError.fileNotReadable r0.m_filepath) ⟨false, false⟩ ∧
        ConstIterator.init r0 f =
          InitResult.thrown (VideoError.fileNotReadable r0.m_filepath)) ∧
    (∀ (r0 : VideoReader) (f : AVFormatFile) (e : VideoError) (t : OpenTrace),
        VideoReader.openM r0 f = OpenResult.thrown e t →
        classify e ∈ [some FailureCategory.resourceUnreadable,
          some FailureCategory.missingStreamInfo, some FailureCategory.noVideoStream,
          some FailureCategory.unsupportedCodec, some FailureCategory.codecOpenFailure,
          some FailureCategory.allocationFailure]) ∧
    (∀ (p : VideoReader) (f : AVFormatFile) (e : VideoError),
        ConstIterator.init p f = InitResult.thrown e →
        classify e ∈ [some FailureCategory.resourceUnreadable,
          some FailureCategory.missingStreamInfo, some FailureCategory.noVideoStream,
          some FailureCategory.unsupportedCodec, some FailureCategory.codecOpenFailure,
          some FailureCategory.allocationFailure] ∧
        classify e ≠ some FailureCategory.indexOutOfRange) := by
  refine ⟨?_, ?_, ?_⟩
  · intro r0 f hr
    constructor
    · unfold VideoReader.openM
      simp [hr]
    · unfold ConstIterator.init
      simp [hr]
  · intro r0 f e t h
    rcases VideoReader.openM_thrown_classify h with h1 | h1 | h1 | h1 | h1 <;>
      rw [h1] <;> decide
  · intro p f e h
    rcases ConstIterator.init_thrown_classify h with h1 | h1 | h1 | h1 | h1 | h1 <;>
      rw [h1] <;> exact ⟨by decide, by decide⟩

/-- Witness for C4: a non-readable file, a concrete thrown open error and
a concrete thrown allocation error. -/
theorem spec_C4_failures_enumerated_witness :
    (VideoReader.openM (VideoReader.zeroed "w.avi") { wFile with readable := false } =
        OpenResult.thrown (VideoError.fileNotReadable "w.avi") ⟨false, false⟩ ∧
      ConstIterator.init (VideoReader.zeroed "w.avi") { wFile with readable := false } =
        InitResult.thrown (VideoError.fileNotReadable "w.avi")) ∧
    classify (VideoError.ffmpeg "w.avi" "cannot find stream info") ∈
      [some FailureCategory.resourceUnreadable, some FailureCategory.missingStreamInfo,
       some FailureCategory.noVideoStream, some FailureCategory.unsupportedCodec,
       some FailureCategory.codecOpenFailure, some FailureCategory.allocationFailure] ∧
    (classify (VideoError.ffmpeg "w.avi" "cannot allocate frame buffer") ∈
      [some FailureCategory.resourceUnreadable, some FailureCategory.missingStreamInfo,
       some FailureCategory.noVideoStream, some FailureCategory.unsupportedCodec,
       some FailureCategory.codecOpenFailure, some FailureCategory.allocationFailure] ∧
     classify (VideoError.ffmpeg "w.avi" "cannot allocate frame buffer") ≠
       some FailureCategory.indexOutOfRange) :=
  ⟨spec_C4_failures_enumerated.1 (VideoReader.zeroed "w.avi")
      { wFile with readable := false } rfl,
   spec_C4_failures_enumerated.2.1 (VideoReader.zeroed "w.avi")
      { wFile with has_stream_info := false } (VideoError.ffmpeg "w.avi" "cannot find stream info")
      ⟨true, false⟩ rfl,
   spec_C4_failures_enumerated.2.2 (VideoReader.zeroed "w.avi")
      { wFile with alloc_frame_ok := false } (VideoError.ffmpeg "w.avi" "cannot allocate frame buffer")
      rfl⟩

/-- Helper: what a successful `init()` returns: the reset (end) state when
the file declares zero frames, the live start state otherwise. -/
theorem ConstIterator.init_ok_elim {p : VideoReader} {f : AVFormatFile} {s : ConstIterator}
    (h : ConstIterator.init p f = InitResult.ok s) :
    (p.m_nframes = 0 ∧ s = (ConstIterator.liveStart p f).reset) ∨
    (0 < p.m_nframes ∧ s = ConstIterator.liveStart p f) := by
  unfold ConstIterator.init at h
  split at h
  · exact InitResult.noConfusion h
  split at h
  · exact InitResult.noConfusion h
  split at h
  · exact InitResult.noConfusion h
  split at h
  · exact InitResult.noConfusion h
  split at h
  · exact InitResult.noConfusion h
  split at h
  · exact InitResult.noConfusion h
  split at h
  · exact InitResult.noConfusion h
  split at h
  · exact InitResult.noConfusion h
  split at h
  · exact InitResult.noConfusion h
  split at h
  next hle =>
    injection h with h1
    exact Or.inl ⟨Nat.le_zero.mp hle, h1.symm⟩
  next hgt =>
    injection h with h1
    exact Or.inr ⟨Nat.not_le.mp hgt, h1.symm⟩

/-- Helper: the reset of the fully initialised live state has a null
parent and the sentinel counter, and compares equal to `end()`. -/
theorem liveStart_reset_is_end (p : VideoReader) (f : AVFormatFile) :
    (ConstIterator.liveStart p f).reset.m_parent = none ∧
    (ConstIterator.liveStart p f).reset.m_current_frame = sizeMax ∧
    ConstIterator.beq (ConstIterator.liveStart p f).reset ConstIterator.endIter = true := by
  refine ⟨rfl, rfl, ?_⟩
  simp [ConstIterator.beq, ConstIterator.reset, ConstIterator.liveStart, ConstIterator.endIter]

/-- C7: on a valid file declaring zero frames, `begin()` hands back an
iterator that `init()` immediately reset: null parent, sentinel counter,
equal to `end()` under `operator==`, so the `load` loop performs zero
`read` calls and returns its array unchanged. -/
theorem spec_C7_zero_frames_begin_is_end :
    ∀ (p : VideoReader) (f : AVFormatFile) (s : ConstIterator),
      p.m_nframes = 0 →
      VideoReader.begin p f = InitResult.ok s →
      s.m_parent = none ∧ s.m_current_frame = sizeMax ∧
      ConstIterator.beq s ConstIterator.endIter = true ∧
      (∀ (fuel : Nat) (d : Arr4) (n : Nat),
        VideoReader.loadLoop fuel s d n = some (d, s, n)) := by
  intro p f s h0 hinit
  rcases ConstIterator.init_ok_elim hinit with ⟨_, hs⟩ | ⟨hpos, _⟩
  · subst hs
    obtain ⟨h1, h2, h3⟩ := liveStart_reset_is_end p f
    refine ⟨h1, h2, h3, ?_⟩
    intro fuel d n
    cases fuel <;> simp [VideoReader.loadLoop, h3]
  · rw [h0] at hpos
    exact absurd hpos (Nat.lt_irrefl 0)

/-- Witness for C7: a concrete readable file declaring zero frames; the
loop is evaluated at fuel 3 on a concrete array and performs zero reads. -/
theorem spec_C7_zero_frames_begin_is_end_witness :
    ((ConstIterator.liveStart { wReader with m_nframes := 0 } wFile).reset.m_parent = none ∧
     (ConstIterator.liveStart { wReader with m_nframes := 0 } wFile).reset.m_current_frame = sizeMax ∧
     ConstIterator.beq (ConstIterator.liveStart { wReader with m_nframes := 0 } wFile).reset
       ConstIterator.endIter = true) ∧
    VideoReader.loadLoop 3 (ConstIterator.liveStart { wReader with m_nframes := 0 } wFile).reset
      wArr4 0 =
      some (wArr4, (ConstIterator.liveStart { wReader with m_nframes := 0 } wFile).reset, 0) :=
  have h := spec_C7_zero_frames_begin_is_end { wReader with m_nframes := 0 } wFile
    (ConstIterator.liveStart { wReader with m_nframes := 0 } wFile).reset rfl rfl
  ⟨⟨h.1, h.2.1, h.2.2.1⟩, h.2.2.2 3 wArr4 0⟩

/-- Helper: what a successful `read` returns. -/
theorem ConstIterator.read_ok_elim {it : ConstIterator} {d : Arr3} {s2 : ConstIterator}
    {d2 : Arr3} (h : ConstIterator.read it d = ReadResult.ok s2 d2) :
    ∃ p, it.m_parent = some p ∧ it.m_current_frame ≤ p.m_nframes ∧
      d2 = ConstIterator.readDat p it d ∧
      ((p.m_nframes ≤ ConstIterator.readCur it ∧ s2 = (ConstIterator.readNext it).reset) ∨
       (ConstIterator.readCur it < p.m_nframes ∧ s2 = ConstIterator.readNext it)) := by
  unfold ConstIterator.read at h
  split at h
  · exact ReadResult.noConfusion h
  next p hp =>
    split at h
    · exact ReadResult.noConfusion h
    next hguard =>
      split at h
      next hle =>
        injection h with h1 h2
        exact ⟨p, hp, Nat.not_lt.mp hguard, h2.symm, Or.inl ⟨hle, h1.symm⟩⟩
      next hgt =>
        injection h with h1 h2
        exact ⟨p, hp, Nat.not_lt.mp hguard, h2.symm, Or.inr ⟨Nat.not_le.mp hgt, h1.symm⟩⟩

/-- Helper: the array produced by `read` always has the conforming
per-frame shape `(3, height, width)` of the parent stream. -/
theorem readDat_extents (p : VideoReader) (it : ConstIterator) (d : Arr3) :
    (ConstIterator.readDat p it d).e0 = 3 ∧
    (ConstIterator.readDat p it d).e1 = p.m_height ∧
    (ConstIterator.readDat p it d).e2 = p.m_width := by
  unfold ConstIterator.readDat assign3
  split
  · exact ⟨rfl, rfl, rfl⟩
  next hcond =>
    push_neg at hcond
    exact ⟨hcond.1, hcond.2.1, hcond.2.2⟩

/-- Helper: the `load` loop never changes the extents of its array (reads
are written back through conforming slices). -/
theorem loadLoop_extents :
    ∀ (fuel : Nat) (s : ConstIterator) (d : Arr4) (n : Nat) (d2 : Arr4)
      (s2 : ConstIterator) (n2 : Nat),
      VideoReader.loadLoop fuel s d n = some (d2, s2, n2) →
      d2.e0 = d.e0 ∧ d2.e1 = d.e1 ∧ d2.e2 = d.e2 ∧ d2.e3 = d.e3 := by
  intro fuel
  induction fuel with
  | zero =>
    intro s d n d2 s2 n2 h
    unfold VideoReader.loadLoop at h
    split at h
    · simp only [Option.some.injEq, Prod.mk.injEq] at h
      obtain ⟨h1, -, -⟩ := h
      subst h1
      exact ⟨rfl, rfl, rfl, rfl⟩
    · exact Option.noConfusion h
  | succ fuel ih =>
    intro s d n d2 s2 n2 h
    unfold VideoReader.loadLoop at h
    split at h
    · simp only [Option.some.injEq, Prod.mk.injEq] at h
      obtain ⟨h1, -, -⟩ := h
      subst h1
      exact ⟨rfl, rfl, rfl, rfl⟩
    · split at h
      next s1 fr hread =>
        have hrec := ih s1 (writeSlice4 d s.m_current_frame fr) (n + 1) d2 s2 n2 h
        exact hrec
      next hother =>
        exact Option.noConfusion h

/-- C2: the conformity check of `load` gives the output array the shape
(declared frames, 3, height, width) whatever shape (or non-contiguous
storage) it arrives with, the read loop preserves that shape, so whenever
`load` returns, the array has exactly that shape; and each `read` returns
a per-frame array of shape (3, height, width). -/
theorem spec_C2_output_shape :
    (∀ (p : VideoReader) (d : Arr4),
        (VideoReader.loadPrepare p d).e0 = p.m_nframes ∧
        (VideoReader.loadPrepare p d).e1 = 3 ∧
        (VideoReader.loadPrepare p d).e2 = p.m_height ∧
        (VideoReader.loadPrepare p d).e3 = p.m_width) ∧
    (∀ (p : VideoReader) (f : AVFormatFile) (fuel : Nat) (d d2 : Arr4) (n : Nat),
        VideoReader.load p f fuel d = some (d2, n) →
        d2.e0 = p.m_nframes ∧ d2.e1 = 3 ∧ d2.e2 = p.m_height ∧ d2.e3 = p.m_width) ∧
    (∀ (it : ConstIterator) (p : VideoReader) (d : Arr3) (s2 : ConstIterator) (d2 : Arr3),
        it.m_parent = some p →
        ConstIterator.read it d = ReadResult.ok s2 d2 →
        d2.e0 = 3 ∧ d2.e1 = p.m_height ∧ d2.e2 = p.m_width) := by
  have hprep : ∀ (p : VideoReader) (d : Arr4),
      (VideoReader.loadPrepare p d).e0 = p.m_nframes ∧
      (VideoReader.loadPrepare p d).e1 = 3 ∧
      (VideoReader.loadPrepare p d).e2 = p.m_height ∧
      (VideoReader.loadPrepare p d).e3 = p.m_width := by
    intro p d
    unfold VideoReader.loadPrepare
    split
    · exact ⟨rfl, rfl, rfl, rfl⟩
    next hcond =>
      push_neg at hcond
      exact ⟨hcond.1, hcond.2.1, hcond.2.2.1, hcond.2.2.2.1⟩
  refine ⟨hprep, ?_, ?_⟩
  · intro p f fuel d d2 n h
    unfold VideoReader.load at h
    split at h
    next s hs =>
      split at h
      next d3 s3 n3 hloop =>
        simp only [Option.some.injEq, Prod.mk.injEq] at h
        obtain ⟨h1, -⟩ := h
        subst h1
        obtain ⟨e0, e1, e2, e3⟩ := loadLoop_extents fuel s (VideoReader.loadPrepare p d) 0 d3 s3 n3 hloop
        obtain ⟨p0, p1, p2, p3⟩ := hprep p d
        exact ⟨e0.trans p0, e1.trans p1, e2.trans p2, e3.trans p3⟩
      next hnone =>
        exact Option.noConfusion h
    next =>
      exact Option.noConfusion h
  · intro it p d s2 d2 hp h
    obtain ⟨p1, hp1, -, hd2, -⟩ := ConstIterator.read_ok_elim h
    rw [hp] at hp1
    injection hp1 with he
    subst he
    subst hd2
    exact readDat_extents p it d

/-- Witness for C2: a concrete `load` run on a non-conforming array and a
concrete `read` on a conforming one. -/
theorem spec_C2_output_shape_witness :
    ((VideoReader.loadPrepare wReader wArr4).e0 = wReader.m_nframes ∧
     (VideoReader.loadPrepare wReader wArr4).e1 = 3 ∧
     (VideoReader.loadPrepare wReader wArr4).e2 = wReader.m_height ∧
     (VideoReader.loadPrepare wReader wArr4).e3 = wReader.m_width) ∧
    ((ConstIterator.readDat wReader (ConstIterator.liveStart wReader wFile) wArr3).e0 = 3 ∧
     (ConstIterator.readDat wReader (ConstIterator.liveStart wReader wFile) wArr3).e1 = wReader.m_height ∧
     (ConstIterator.readDat wReader (ConstIterator.liveStart wReader wFile) wArr3).e2 = wReader.m_width) :=
  ⟨spec_C2_output_shape.1 wReader wArr4,
   spec_C2_output_shape.2.2 (ConstIterator.liveStart wReader wFile) wReader wArr3
     (ConstIterator.readNext (ConstIterator.liveStart wReader wFile)).reset
     (ConstIterator.readDat wReader (ConstIterator.liveStart wReader wFile) wArr3)
     rfl rfl⟩

/-- C5: the copy performed by `read` takes the decoder's row-major
`(height, width, 3)` layout to the band-major `(3, height, width)` layout:
the transposed view satisfies destination `(c, y, x)` = source `(y, x, c)`
and has extents `(3, height, width)`; concretely, after a successful
`read`, element `(c, y, x)` of the destination equals byte
`(y * width + x) * 3 + c` of the RGB buffer left by the decode loop; and
the destination contents are a function of the frame alone — the previous
contents of the destination array never show through (per-call
overwrite). -/
theorem spec_C5_band_major_copy :
    (∀ (h w : Nat) (raw : Nat → Nat) (c y x : Nat),
        ((fromRaw h w raw).transposeView 2 0 1).dat c y x = (fromRaw h w raw).dat y x c) ∧
    (∀ (h w : Nat) (raw : Nat → Nat),
        ((fromRaw h w raw).transposeView 2 0 1).e0 = 3 ∧
        ((fromRaw h w raw).transposeView 2 0 1).e1 = h ∧
        ((fromRaw h w raw).transposeView 2 0 1).e2 = w) ∧
    (∀ (it : ConstIterator) (p : VideoReader) (d : Arr3) (s2 : ConstIterator) (d2 : Arr3),
        it.m_parent = some p →
        ConstIterator.read it d = ReadResult.ok s2 d2 →
        ∀ c y x, d2.dat c y x = ConstIterator.readRgb it ((y * p.m_width + x) * 3 + c)) ∧
    (∀ (p : VideoReader) (it : ConstIterator) (d d' : Arr3),
        (ConstIterator.readDat p it d).dat = (ConstIterator.readDat p it d').dat) := by
  refine ⟨fun _ _ _ _ _ _ => rfl, fun _ _ _ => ⟨rfl, rfl, rfl⟩, ?_, fun _ _ _ _ => rfl⟩
  intro it p d s2 d2 hp h c y x
  obtain ⟨p1, hp1, -, hd2, -⟩ := ConstIterator.read_ok_elim h
  rw [hp] at hp1
  injection hp1 with he
  subst he
  subst hd2
  rfl

/-- Witness for C5 at the concrete one-frame file: reading through the
iterator yields the transposed packet bytes regardless of the prior
destination contents. -/
theorem spec_C5_band_major_copy_witness :
    (ConstIterator.readDat wReader (ConstIterator.liveStart wReader wFile) wArr3).dat 1 0 2 =
      ConstIterator.readRgb (ConstIterator.liveStart wReader wFile) ((0 * 4 + 2) * 3 + 1) :=
  spec_C5_band_major_copy.2.2.1 (ConstIterator.liveStart wReader wFile) wReader wArr3
    (ConstIterator.readNext (ConstIterator.liveStart wReader wFile)).reset
    (ConstIterator.readDat wReader (ConstIterator.liveStart wReader wFile) wArr3)
    rfl rfl 1 0 2

/-- C3 counterexample: the claim says every iterator at or beyond the
declared frame count raises `IndexError` from `read` / `operator++` and
produces no frame data. The code tests `m_current_frame >
m_parent->numberOfFrames()` (strict) and nulls `m_parent` on reset, so:
(a) a live iterator exactly AT the declared count (`wAtCount`, counter 1
of 1 declared frame) passes the guard and `read` succeeds, producing
frame data; (b) on the past-the-end iterator (`end()`, counter
`sizeMax`), `read` / `operator++` dereference the null `m_parent` instead
of throwing. -/
theorem spec_C3_past_end_counterexample :
    ConstIterator.read wAtCount wArr3 =
      ReadResult.ok (ConstIterator.readNext wAtCount).reset
        (ConstIterator.readDat wReader wAtCount wArr3) ∧
    ConstIterator.read wAtCount wArr3 ≠
      ReadResult.thrown (VideoError.indexError 1) ∧
    ConstIterator.read ConstIterator.endIter wArr3 = ReadResult.crash ∧
    ConstIterator.read ConstIterator.endIter wArr3 ≠
      ReadResult.thrown (VideoError.indexError sizeMax) ∧
    ConstIterator.inc ConstIterator.endIter = IncResult.crash :=
  ⟨rfl, fun h => ReadResult.noConfusion h, rfl, fun h => ReadResult.noConfusion h, rfl⟩

/-- C3 amended: `read` and `operator++` raise `IndexError` exactly on a
live iterator whose counter STRICTLY exceeds the parent's declared frame
count; an iterator exactly at the count proceeds without an index error;
and on the parentless end iterator both calls dereference a null pointer
(undefined behaviour) instead of raising `IndexError`. -/
theorem spec_C3_past_end_amended :
    (∀ (it : ConstIterator) (p : VideoReader) (d : Arr3),
        it.m_parent = some p →
        p.m_nframes < it.m_current_frame →
        ConstIterator.read it d =
          ReadResult.thrown (VideoError.indexError it.m_current_frame)) ∧
    (∀ (it : ConstIterator) (p : VideoReader),
        it.m_parent = some p →
        p.m_nframes < it.m_current_frame →
        ConstIterator.inc it = IncResult.thrown (VideoError.indexError it.m_current_frame)) ∧
    (∀ d : Arr3, ConstIterator.read ConstIterator.endIter d = ReadResult.crash) ∧
    ConstIterator.inc ConstIterator.endIter = IncResult.crash := by
  refine ⟨?_, ?_, fun _ => rfl, rfl⟩
  · intro it p d hp hlt
    unfold ConstIterator.read
    rw [hp]
    simp [hlt]
  · intro it p hp hlt
    unfold ConstIterator.inc
    rw [hp]
    simp [hlt]

/-- Witness for the amended C3 at a concrete live iterator with counter 5
over a file declaring 1 frame. -/
theorem spec_C3_past_end_amended_witness :
    ConstIterator.read wPastEnd wArr3 = ReadResult.thrown (VideoError.indexError 5) ∧
    ConstIterator.inc wPastEnd = IncResult.thrown (VideoError.indexError 5) :=
  ⟨spec_C3_past_end_amended.1 wPastEnd wReader wArr3 rfl (by decide),
   spec_C3_past_end_amended.2.1 wPastEnd wReader rfl (by decide)⟩

/-- Helper: when at least one decodable packet of the stream remains, the
decode loop gets a picture and consumes exactly one decodable packet. -/
theorem decodeLoop_count (si : Int) :
    ∀ pkts : List AVPacket, 0 < countDecodable si pkts →
      (decodeLoop si pkts).2.isSome = true ∧
      countDecodable si (decodeLoop si pkts).1 + 1 = countDecodable si pkts := by
  intro pkts
  induction pkts with
  | nil =>
    intro h
    exact absurd h (by simp [countDecodable])
  | cons q rest ih =>
    intro h
    by_cases hc : q.stream_index = si ∧ q.gotPicture = true
    · have hcond : (q.stream_index == si && q.gotPicture) = true := by
        simp [hc.1, hc.2]
      constructor
      · simp [decodeLoop, hc]
      · simp only [decodeLoop, hc, and_self, if_true]
        simp [countDecodable, List.filter_cons, hcond]
    · have hcond : (q.stream_index == si && q.gotPicture) = false := by
        by_cases h1 : q.stream_index = si
        · by_cases h2 : q.gotPicture = true
          · exact absurd ⟨h1, h2⟩ hc
          · simp [Bool.eq_false_iff.mpr h2]
        · simp [h1]
      have hcnt : countDecodable si (q :: rest) = countDecodable si rest := by
        simp [countDecodable, List.filter_cons, hcond]
      have hdl : decodeLoop si (q :: rest) = decodeLoop si rest := by
        simp [decodeLoop, hc]
      rw [hcnt] at h
      rw [hdl, hcnt]
      exact ih h

/-- Helper: with a decodable packet available, the counter after the
decode loop is the old counter plus one. -/
theorem readCur_of_decodable {s : ConstIterator}
    (hdec : 0 < countDecodable s.m_stream_index s.m_packets) :
    ConstIterator.readCur s = s.m_current_frame + 1 := by
  have h := decodeLoop_count s.m_stream_index s.m_packets hdec
  unfold ConstIterator.readCur ConstIterator.readGot
  split
  · rfl
  next heq =>
    rw [heq] at h
    simp at h

/-- Helper: an iterator with a parent is not equal to `end()`. -/
theorem beq_end_of_parent_some {s : ConstIterator} {p : VideoReader}
    (hp : s.m_parent = some p) :
    ConstIterator.beq s ConstIterator.endIter = false := by
  simp only [ConstIterator.beq, hp, ConstIterator.endIter]
  rfl

/-- Helper: any reset iterator compares equal to `end()`. -/
theorem reset_beq_end (it : ConstIterator) :
    ConstIterator.beq it.reset ConstIterator.endIter = true := by
  have hpar : it.reset.m_parent = none := rfl
  have hcur : it.reset.m_current_frame = sizeMax := rfl
  simp only [ConstIterator.beq, hpar, hcur]
  exact rfl

/-- Helper: the `load` loop returns immediately on an end iterator,
performing zero reads. -/
theorem loadLoop_end (fuel n : Nat) (s : ConstIterator) (d : Arr4)
    (hbeq : ConstIterator.beq s ConstIterator.endIter = true) :
    VideoReader.loadLoop fuel s d n = some (d, s, n) := by
  cases fuel <;> simp [VideoReader.loadLoop, hbeq]

/-- Helper: one unfolding of the `load` loop at a live iterator whose
`read` succeeds. -/
theorem loadLoop_succ_ok {s : ConstIterator} {d : Arr4} {s1 : ConstIterator} {fr : Arr3}
    (fuel n : Nat)
    (hbeq : ConstIterator.beq s ConstIterator.endIter = false)
    (hread : ConstIterator.read s (slice4 d s.m_current_frame) = ReadResult.ok s1 fr) :
    VideoReader.loadLoop (fuel + 1) s d n =
      VideoReader.loadLoop fuel s1 (writeSlice4 d s.m_current_frame fr) (n + 1) := by
  simp [VideoReader.loadLoop, hbeq, hread]

/-- Helper: the result of `read` on a live iterator below the frame count
with a decodable packet available: success, with the counter incremented,
and a transition to the reset (end) state exactly when the incremented
counter reaches the declared count. -/
theorem read_decodes {s : ConstIterator} {p : VideoReader} (d : Arr3)
    (hp : s.m_parent = some p) (hlt : s.m_current_frame < p.m_nframes)
    (hdec : 0 < countDecodable s.m_stream_index s.m_packets) :
    ConstIterator.read s d =
      (if p.m_nframes ≤ s.m_current_frame + 1 then
        ReadResult.ok (ConstIterator.readNext s).reset (ConstIterator.readDat p s d)
      else ReadResult.ok (ConstIterator.readNext s) (ConstIterator.readDat p s d)) := by
  have hcur := readCur_of_decodable hdec
  simp only [ConstIterator.read, hp]
  rw [hcur]
  rw [if_neg (Nat.not_lt.mpr (Nat.le_of_lt hlt))]

/-- Helper: the fields of `readNext` that the loop induction tracks. -/
theorem readNext_fields (s : ConstIterator) :
    (ConstIterator.readNext s).m_parent = s.m_parent ∧
    (ConstIterator.readNext s).m_stream_index = s.m_stream_index ∧
    (ConstIterator.readNext s).m_packets = (decodeLoop s.m_stream_index s.m_packets).1 ∧
    (ConstIterator.readNext s).m_current_frame = ConstIterator.readCur s :=
  ⟨rfl, rfl, rfl, rfl⟩

/-- Helper: the main induction behind C1: starting from a live iterator
with `j + 1` frames left to the declared count and at least `j + 1`
decodable packets remaining, the `load` loop with fuel `j + 1` performs
exactly `j + 1` further reads and finishes at an iterator equal to
`end()`. -/
theorem loadLoop_run {p : VideoReader} :
    ∀ (j : Nat) (s : ConstIterator) (d : Arr4) (n : Nat),
      s.m_parent = some p →
      s.m_current_frame + (j + 1) = p.m_nframes →
      j + 1 ≤ countDecodable s.m_stream_index s.m_packets →
      ∃ d2 s2, VideoReader.loadLoop (j + 1) s d n = some (d2, s2, n + (j + 1)) ∧
        ConstIterator.beq s2 ConstIterator.endIter = true := by
  intro j
  induction j with
  | zero =>
    intro s d n hp hleft hdec
    have hlt : s.m_current_frame < p.m_nframes := by omega
    have hdec0 : 0 < countDecodable s.m_stream_index s.m_packets := by omega
    have hread := read_decodes (slice4 d s.m_current_frame) hp hlt hdec0
    rw [if_pos (by omega : p.m_nframes ≤ s.m_current_frame + 1)] at hread
    rw [loadLoop_succ_ok 0 n (beq_end_of_parent_some hp) hread]
    refine ⟨writeSlice4 d s.m_current_frame
        (ConstIterator.readDat p s (slice4 d s.m_current_frame)),
      (ConstIterator.readNext s).reset, ?_, reset_beq_end _⟩
    exact loadLoop_end 0 (n + 1) _ _ (reset_beq_end _)
  | succ j ih =>
    intro s d n hp hleft hdec
    have hlt : s.m_current_frame < p.m_nframes := by omega
    have hdec0 : 0 < countDecodable s.m_stream_index s.m_packets := by omega
    have hread := read_decodes (slice4 d s.m_current_frame) hp hlt hdec0
    rw [if_neg (by omega : ¬ p.m_nframes ≤ s.m_current_frame + 1)] at hread
    rw [loadLoop_succ_ok (j + 1) n (beq_end_of_parent_some hp) hread]
    obtain ⟨hpar, hsi, hpk, hcur⟩ := readNext_fields s
    have hcount := (decodeLoop_count s.m_stream_index s.m_packets hdec0).2
    have hcur1 := readCur_of_decodable hdec0
    obtain ⟨d2, s2, hrun, hend⟩ :=
      ih (ConstIterator.readNext s)
        (writeSlice4 d s.m_current_frame
          (ConstIterator.readDat p s (slice4 d s.m_current_frame)))
        (n + 1)
        (hpar.trans hp)
        (by rw [hcur, hcur1]; omega)
        (by rw [hsi, hpk]; omega)
    refine ⟨d2, s2, ?_, hend⟩
    have harith : n + 1 + (j + 1) = n + (j + 1 + 1) := by omega
    rw [harith] at hrun
    exact hrun

/-- C1: on a readable video declaring `N` frames with at least `N`
decodable packets in its stream, `load` run with fuel `N` terminates
having called `read` exactly `N` times; and each such `read` on a live
iterator below the count increments the counter by exactly one and makes
the iterator equal to `end()` exactly when the counter reaches the
declared count. -/
theorem spec_C1_load_reads_declared_frames :
    (∀ (p : VideoReader) (f : AVFormatFile) (s0 : ConstIterator) (d : Arr4),
        VideoReader.begin p f = InitResult.ok s0 →
        p.m_nframes ≤ countDecodable (findVideoStreamIdx f.streams) f.packets →
        ∃ d2, VideoReader.load p f p.m_nframes d = some (d2, p.m_nframes)) ∧
    (∀ (s : ConstIterator) (p : VideoReader) (d : Arr3),
        s.m_parent = some p →
        s.m_current_frame < p.m_nframes →
        0 < countDecodable s.m_stream_index s.m_packets →
        ∃ s2 d2, ConstIterator.read s d = ReadResult.ok s2 d2 ∧
          ((s.m_current_frame + 1 < p.m_nframes ∧
            s2.m_current_frame = s.m_current_frame + 1 ∧
            ConstIterator.beq s2 ConstIterator.endIter = false) ∨
           (s.m_current_frame + 1 = p.m_nframes ∧
            ConstIterator.beq s2 ConstIterator.endIter = true))) := by
  constructor
  · intro p f s0 d hinit hcount
    rcases ConstIterator.init_ok_elim hinit with ⟨h0, hs⟩ | ⟨hpos, hs⟩
    · subst hs
      refine ⟨VideoReader.loadPrepare p d, ?_⟩
      simp only [VideoReader.load, hinit]
      rw [loadLoop_end p.m_nframes 0 _ _ (reset_beq_end _)]
      simp [h0]
    · subst hs
      rcases hn : p.m_nframes with _ | j
      · omega
      · obtain ⟨d2, s2, hrun, -⟩ :=
          loadLoop_run j (ConstIterator.liveStart p f) (VideoReader.loadPrepare p d) 0
            rfl (by simp [ConstIterator.liveStart]; omega)
            (by rw [hn] at hcount; exact hcount)
        refine ⟨d2, ?_⟩
        simp only [VideoReader.load, hinit]
        rw [hrun]
        simp
  · intro s p d hp hlt hdec
    have hread := read_decodes d hp hlt hdec
    have hcur1 := readCur_of_decodable hdec
    by_cases hend : p.m_nframes ≤ s.m_current_frame + 1
    · rw [if_pos hend] at hread
      exact ⟨(ConstIterator.readNext s).reset, ConstIterator.readDat p s d, hread,
        Or.inr ⟨by omega, reset_beq_end _⟩⟩
    · rw [if_neg hend] at hread
      refine ⟨ConstIterator.readNext s, ConstIterator.readDat p s d, hread,
        Or.inl ⟨by omega, ?_, ?_⟩⟩
      · exact ((readNext_fields s).2.2.2).trans hcur1
      · exact beq_end_of_parent_some (((readNext_fields s).1).trans hp)

/-- Witness for C1: the concrete one-frame file; `load` with fuel 1
performs exactly one read, and that read succeeds and reaches `end()`. -/
theorem spec_C1_load_reads_declared_frames_witness :
    (VideoReader.load wReader wFile wReader.m_nframes wArr4).map Prod.snd =
      some wReader.m_nframes ∧
    (ConstIterator.read (ConstIterator.liveStart wReader wFile) wArr3).isOk = true ∧
    (ConstIterator.read (ConstIterator.liveStart wReader wFile) wArr3).endAfter = true := by
  obtain ⟨d2, hd2⟩ := spec_C1_load_reads_declared_frames.1 wReader wFile
    (ConstIterator.liveStart wReader wFile) wArr4 rfl (by decide)
  obtain ⟨s2, e2, hok, hcase⟩ := spec_C1_load_reads_declared_frames.2
    (ConstIterator.liveStart wReader wFile) wReader wArr3 rfl (by decide) (by decide)
  refine ⟨by rw [hd2]; rfl, by rw [hok]; rfl, ?_⟩
  rcases hcase with ⟨hlt, -, -⟩ | ⟨-, hbeq⟩
  · exact absurd hlt (by decide)
  · rw [hok]
    exact hbeq

end database
end Torch
